import Mathlib

/-
Verification development for the model-to-form conversion layer of
Flask-DataBrowser (file flask_databrowser/form/convent.py, plus
flask_databrowser/utils.py).  The Python code is shallowly embedded:
Python objects whose attributes may be absent are modelled with Option
fields (none = attribute absent), Python dictionaries are association
lists looked up by key, exceptions are an explicit error type threaded
with Except, and Python truthiness tests on lists/dicts are emptiness
tests.  Classes are identified by their names (String).
-/

namespace FlaskDB

/-- Python exception kinds that the embedded code can raise. -/
inductive PyErr where
  | typeError
  | valueError
  | attributeError
  | indexError
deriving DecidableEq, Repr

/-- Identity of a Python class: its defining module and its class name.
Used for the converter registry keys built from
col_type.__module__ and col_type.__name__ (convent.py line 46). -/
structure TypeId where
  module : String
  name : String
deriving DecidableEq, Repr

/-- A Python class together with its linearized ancestor chain:
inspect.getmro(cls) returns the class itself first, then its ancestors,
most derived first. -/
structure PyClass where
  concrete : TypeId
  ancestors : List TypeId
deriving DecidableEq, Repr

/-- Result of inspect.getmro on a class: the class itself followed by its
ancestors (convent.py line 40). -/
def PyClass.getmro (c : PyClass) : List TypeId := c.concrete :: c.ancestors

/-- Relationship direction names used by SQLAlchemy
(prop.direction.name, convent.py lines 168, 182, 185, 193). -/
inductive Direction where
  | manytoone
  | onetomany
  | manytomany
deriving DecidableEq, Repr

/-- The .name attribute of a SQLAlchemy direction symbol. -/
def Direction.name : Direction → String
  | .manytoone => "MANYTOONE"
  | .onetomany => "ONETOMANY"
  | .manytomany => "MANYTOMANY"

/-- Validator objects appended to the validators list during conversion
(wtforms validators and the local Unique validator). -/
inductive Validator where
  | optional
  | required
  | unique (session : String) (model : String) (column : String)
  | length (max : Nat)
  | anyOf (values : List String)
  | numberRange (lo : Option Int) (hi : Option Int)
  | ipAddress
  | macAddress
  | uuid
deriving DecidableEq, Repr

/-- Value stored under the get_label key of the field arguments: either a
formatter callable from the view's form_formatters map (identified by a
number) or a plain string (the result of prettify_name, convent.py
line 377). -/
inductive LabelFunc where
  | formatter (id : Nat)
  | str (s : String)
deriving DecidableEq, Repr

/-- Widget constructors from the form collaborator used by the converters. -/
inductive Widget where
  | select2 (multiple : Bool)
  | datePicker
  | dateTimePicker
deriving DecidableEq, Repr

/-- Value stored under the allow_blank key.  The source stores the
one-element tuple (local_column.nullable,) - constructor tup - rather
than the bare boolean - constructor boolVal (convent.py line 178). -/
inductive BlankVal where
  | boolVal (b : Bool)
  | tup (b : Bool)
deriving DecidableEq, Repr

/-- The deferred query callable
lambda: self.session.query(remote_model) (convent.py line 180),
identified by the captured session and remote model. -/
inductive QueryFactory where
  | lazyQuery (session : String) (model : String)
deriving DecidableEq, Repr

/-- Column default descriptor (convent.py lines 252-266): arg is the
stored default (getattr(default, 'arg', None)); a callable default is
modelled by the value it returns when invoked with a null execution
context. -/
structure ColumnDefault where
  arg : Option Int
  is_callable : Bool
  is_scalar : Bool
deriving DecidableEq, Repr

/-- The column.type instance: its Python class (for converter dispatch and
isinstance tests) and the instance attributes the converters read.
Option encodes attribute absence; for scale the inner Option is a stored
None value. -/
structure SATypeInst where
  cls : PyClass
  enums : Option (List String)
  length : Option Nat
  unsigned : Bool
  scale : Option (Option Nat)
deriving DecidableEq, Repr

/-- The class sqlalchemy.types.Boolean, imported at convent.py line 4. -/
def booleanTypeId : TypeId := { module := "sqlalchemy.types", name := "Boolean" }

/-- isinstance(column.type, Boolean): true when the Boolean class occurs in
the ancestor chain of the type's class. -/
def isBooleanType (t : SATypeInst) : Bool :=
  (PyClass.getmro t.cls).contains booleanTypeId

/-- A mapped column descriptor with the attributes convert reads:
foreign_keys is the truthiness of the column's foreign-key set, and
is_real_column is the isinstance(column, Column) test (convent.py
line 212). -/
structure SAColumn where
  name : String
  type : SATypeInst
  nullable : Bool
  primary_key : Bool
  foreign_keys : Bool
  unique : Bool
  is_real_column : Bool
  default : Option ColumnDefault
deriving DecidableEq, Repr

/-- A mapper property.  direction is present exactly on relationship
properties (hasattr(prop, 'direction')); mapper_class is prop.mapper.class_
and local_remote_pairs is prop.local_remote_pairs, both meaningful for
relationships; columns is present exactly when hasattr(prop, 'columns');
proxied_property models the optional _proxied_property attribute read by
get_form's find. -/
inductive SAProp : Type where
  | mk : (key : String) → (direction : Option Direction) → (mapper_class : String) →
      (local_remote_pairs : List (SAColumn × SAColumn)) →
      (columns : Option (List SAColumn)) → (proxied_property : Option SAProp) → SAProp

def SAProp.key : SAProp → String
  | .mk k _ _ _ _ _ => k

def SAProp.direction : SAProp → Option Direction
  | .mk _ d _ _ _ _ => d

def SAProp.mapper_class : SAProp → String
  | .mk _ _ m _ _ _ => m

def SAProp.local_remote_pairs : SAProp → List (SAColumn × SAColumn)
  | .mk _ _ _ p _ _ => p

def SAProp.columns : SAProp → Option (List SAColumn)
  | .mk _ _ _ _ c _ => c

def SAProp.proxied_property : SAProp → Option SAProp
  | .mk _ _ _ _ _ pr => pr

/-- The mapper of a model: its mapped class (by name) and the property
list produced by iterate_properties. -/
structure Mapper where
  class_ : String
  properties : List SAProp

/-- Result of getattr(model, name) for a name that is not a mapper
property: either an object carrying a .property attribute (hybrid
property or alias, convent.py lines 430-432) or some other attribute. -/
inductive ModelAttr where
  | withProperty (p : SAProp)
  | plain

/-- A model class: its __name__, the optional _sa_class_manager (absent on
classes that are not mapped models), and its other attributes. -/
structure SAModel where
  className : String
  sa_class_manager : Option Mapper
  attrs : List (String × ModelAttr)

/-- The view collaborator.  Attributes read through three-argument getattr
are Option fields (none = absent or None, which the source treats alike);
form_formatters is read through TWO-argument getattr (convent.py
line 372), so none there means the attribute is absent and the access
raises AttributeError.  column_descriptions is accessed directly and so
always exists. -/
structure View where
  model : String
  prettify_name : String → String
  column_labels_attr : Option (List (String × String))
  column_descriptions : List (String × String)
  form_overrides : Option (List (String × Nat))
  form_columns : Option (List String)
  column_hide_backrefs : Bool
  form_formatters : Option (List (String × LabelFunc))

/-- Python dict.get(key): first association with the given key, else None. -/
def dictGet {κ : Type} (m : List (String × κ)) (k : String) : Option κ :=
  (m.find? (fun pr => pr.1 == k)).map Prod.snd

/-- A per-field argument dictionary as supplied by the caller of get_form:
every key may be absent.  For label, description and get_label the inner
Option is a stored None value. -/
structure FieldArgs where
  validators : Option (List Validator)
  filters : Option (List Unit)
  label : Option (Option String)
  description : Option (Option String)
  get_label : Option (Option LabelFunc)
  allow_blank : Option BlankVal
  query_factory : Option QueryFactory
  default : Option Int
  widget : Option Widget
  choices : Option (List (String × String))
  places : Option Nat
deriving DecidableEq, Repr

/-- The working kwargs dictionary of convert: validators and filters are
always present after initialization (convent.py lines 148-151); the other
keys are present only once assigned. -/
structure Kwargs where
  validators : List Validator
  filters : List Unit
  label : Option (Option String)
  description : Option (Option String)
  get_label : Option (Option LabelFunc)
  allow_blank : Option BlankVal
  query_factory : Option QueryFactory
  default : Option Int
  widget : Option Widget
  choices : Option (List (String × String))
  places : Option Nat
deriving DecidableEq, Repr

/-- The dictionary literal at convent.py lines 148-151:
validators and filters empty, nothing else present. -/
def emptyKwargs : Kwargs :=
  { validators := [], filters := [], label := none, description := none, get_label := none,
    allow_blank := none, query_factory := none, default := none, widget := none,
    choices := none, places := none }

/-- Python dict.update: every key present in fa overwrites the
corresponding entry of k. -/
def Kwargs.update (k : Kwargs) (fa : FieldArgs) : Kwargs :=
  { validators := fa.validators.getD k.validators,
    filters := fa.filters.getD k.filters,
    label := fa.label.orElse (fun _ => k.label),
    description := fa.description.orElse (fun _ => k.description),
    get_label := fa.get_label.orElse (fun _ => k.get_label),
    allow_blank := fa.allow_blank.orElse (fun _ => k.allow_blank),
    query_factory := fa.query_factory.orElse (fun _ => k.query_factory),
    default := fa.default.orElse (fun _ => k.default),
    widget := fa.widget.orElse (fun _ => k.widget),
    choices := fa.choices.orElse (fun _ => k.choices),
    places := fa.places.orElse (fun _ => k.places) }

/-- Lines 148-154 of convent.py: initialize kwargs with empty validators
and filters, then update from field_args when one was supplied (updating
from an empty dictionary is the identity, so Python truthiness of the
dictionary need not be distinguished from None here). -/
def makeKwargs (field_args : Option FieldArgs) : Kwargs :=
  match field_args with
  | some fa => Kwargs.update emptyKwargs fa
  | none => emptyKwargs

/-- Kind of the constructed form field: which constructor produced it.
overrideField is a field built by a caller-supplied override constructor
from the view's form_overrides map. -/
inductive FieldKind where
  | textField
  | textAreaField
  | booleanField
  | dateField
  | dateTimeField
  | timeField
  | integerField
  | decimalField
  | hiddenField
  | select2Field
  | select2TagsField
  | querySelectField
  | querySelectMultipleField
  | overrideField (id : Nat)
deriving DecidableEq, Repr

/-- A constructed form field: the constructor used and the keyword
arguments it received. -/
structure Field where
  kind : FieldKind
  args : Kwargs
deriving DecidableEq, Repr

/-- The converter registry state built by ModelConverterBase.__init__
(convent.py lines 24-36): the use_mro flag and the mapping from
type-identifier string to converter, abstract in the converter type. -/
structure ModelConverterBase (κ : Type) where
  use_mro : Bool
  converters : List (String × κ)

/-- The qualified identifier '%s.%s' % (module, name) of convent.py
line 46. -/
def typeString (t : TypeId) : String := t.module ++ "." ++ t.name

/-- First loop of get_converter (convent.py lines 45-49): scan the type
chain matching by qualified module+name identifier. -/
def searchByTypeString {κ : Type} (converters : List (String × κ)) : List TypeId → Option κ
  | [] => none
  | t :: ts =>
    match dictGet converters (typeString t) with
    | some c => some c
    | none => searchByTypeString converters ts

/-- Second loop of get_converter (convent.py lines 52-54): scan the type
chain matching by short class name. -/
def searchByName {κ : Type} (converters : List (String × κ)) : List TypeId → Option κ
  | [] => none
  | t :: ts =>
    match dictGet converters t.name with
    | some c => some c
    | none => searchByName converters ts

/-- ModelConverterBase.get_converter (convent.py lines 38-56). -/
def ModelConverterBase.get_converter {κ : Type} (self : ModelConverterBase κ)
    (column : SAColumn) : Option κ :=
  let types := if self.use_mro then PyClass.getmro column.type.cls
               else [column.type.cls.concrete]
  match searchByTypeString self.converters types with
  | some c => some c
  | none => searchByName self.converters types

/-- Identifiers for the converter methods of AdminModelConverter
(convent.py lines 288-365). -/
inductive ConvId where
  | convString
  | convText
  | convBoolean
  | convertDate
  | convertDatetime
  | convertTime
  | handleIntegerTypes
  | handleDecimalTypes
  | convMSYear
  | convPGInet
  | convPGMacaddr
  | convPGUuid
  | convARRAY
deriving DecidableEq, Repr

/-- The converter registry assembled by ModelConverterBase.__init__ from
the converts(...) tags on the methods of AdminModelConverter. -/
def adminConverters : List (String × ConvId) :=
  [("String", ConvId.convString), ("Unicode", ConvId.convString),
   ("Text", ConvId.convText), ("UnicodeText", ConvId.convText),
   ("sqlalchemy.types.LargeBinary", ConvId.convText),
   ("sqlalchemy.types.Binary", ConvId.convText),
   ("Boolean", ConvId.convBoolean),
   ("Date", ConvId.convertDate),
   ("DateTime", ConvId.convertDatetime),
   ("Time", ConvId.convertTime),
   ("Integer", ConvId.handleIntegerTypes), ("SmallInteger", ConvId.handleIntegerTypes),
   ("Numeric", ConvId.handleDecimalTypes), ("Float", ConvId.handleDecimalTypes),
   ("databases.mysql.MSYear", ConvId.convMSYear),
   ("databases.postgres.PGInet", ConvId.convPGInet),
   ("dialects.postgresql.base.INET", ConvId.convPGInet),
   ("dialects.postgresql.base.MACADDR", ConvId.convPGMacaddr),
   ("dialects.postgresql.base.UUID", ConvId.convPGUuid),
   ("sqlalchemy.dialects.postgresql.base.ARRAY", ConvId.convARRAY)]

/-- AdminModelConverter: the session (by name) and the view collaborator.
Its __init__ calls the base constructor with defaults, so use_mro is true
and the registry is adminConverters. -/
structure AdminModelConverter where
  session : String
  view : View

/-- AdminModelConverter._get_label (convent.py lines 115-131). -/
def AdminModelConverter._get_label (self : AdminModelConverter) (name : String)
    (field_args : Kwargs) : Option String :=
  match field_args.label with
  | some v => v
  | none =>
    let column_labels := self.view.column_labels_attr.getD []
    if !column_labels.isEmpty then dictGet column_labels name
    else some (self.view.prettify_name name)

/-- AdminModelConverter._get_description (convent.py lines 133-137). -/
def AdminModelConverter._get_description (self : AdminModelConverter) (name : String)
    (field_args : Kwargs) : Option String :=
  match field_args.description with
  | some v => v
  | none =>
    if !self.view.column_descriptions.isEmpty then dictGet self.view.column_descriptions name
    else none

/-- AdminModelConverter._get_field_override (convent.py lines 139-145). -/
def AdminModelConverter._get_field_override (self : AdminModelConverter) (name : String) :
    Option Nat :=
  match self.view.form_overrides with
  | none => none
  | some m => if !m.isEmpty then dictGet m name else none

/-- AdminModelConverter._get_label_func (convent.py lines 368-377).  The
form_formatters attribute is fetched with two-argument getattr, so a view
without it makes this raise AttributeError. -/
def AdminModelConverter._get_label_func (self : AdminModelConverter) (name : String)
    (field_args : Kwargs) : Except PyErr (Option LabelFunc) :=
  match field_args.get_label with
  | some v => Except.ok v
  | none =>
    match self.view.form_formatters with
    | none => Except.error PyErr.attributeError
    | some column_labels =>
      if !column_labels.isEmpty then Except.ok (dictGet column_labels name)
      else Except.ok (some (LabelFunc.str (self.view.prettify_name name)))

/-- AdminModelConverter._string_common (convent.py lines 288-291): append a
length-ceiling validator when column.type.length is truthy. -/
def _string_common (column : SAColumn) (field_args : Kwargs) : Kwargs :=
  match column.type.length with
  | some l =>
    if l ≠ 0 then { field_args with validators := field_args.validators ++ [Validator.length l] }
    else field_args
  | none => field_args

/-- conv_String (convent.py lines 293-300). -/
def conv_String (column : SAColumn) (field_args : Kwargs) : Field :=
  match column.type.enums with
  | some enums =>
    let field_args :=
      { field_args with validators := field_args.validators ++ [Validator.anyOf enums] }
    let field_args := { field_args with choices := some (enums.map (fun f => (f, f))) }
    { kind := FieldKind.select2Field, args := field_args }
  | none => { kind := FieldKind.textField, args := _string_common column field_args }

/-- conv_Text (convent.py lines 302-306). -/
def conv_Text (column : SAColumn) (field_args : Kwargs) : Field :=
  { kind := FieldKind.textAreaField, args := _string_common column field_args }

/-- conv_Boolean (convent.py lines 308-310). -/
def conv_Boolean (field_args : Kwargs) : Field :=
  { kind := FieldKind.booleanField, args := field_args }

/-- convert_date (convent.py lines 312-315). -/
def convert_date (field_args : Kwargs) : Field :=
  { kind := FieldKind.dateField, args := { field_args with widget := some Widget.datePicker } }

/-- convert_datetime (convent.py lines 317-320). -/
def convert_datetime (field_args : Kwargs) : Field :=
  { kind := FieldKind.dateTimeField,
    args := { field_args with widget := some Widget.dateTimePicker } }

/-- convert_time (convent.py lines 322-324). -/
def convert_time (field_args : Kwargs) : Field :=
  { kind := FieldKind.timeField, args := field_args }

/-- handle_integer_types (convent.py lines 326-331). -/
def handle_integer_types (column : SAColumn) (field_args : Kwargs) : Field :=
  let field_args :=
    if column.type.unsigned then
      { field_args with
          validators := field_args.validators ++ [Validator.numberRange (some 0) none] }
    else field_args
  { kind := FieldKind.integerField, args := field_args }

/-- handle_decimal_types (convent.py lines 333-338): scale defaults to 2
when the attribute is absent; a stored None leaves places unset. -/
def handle_decimal_types (column : SAColumn) (field_args : Kwargs) : Field :=
  let places : Option Nat :=
    match column.type.scale with
    | none => some 2
    | some v => v
  let field_args :=
    match places with
    | some p => { field_args with places := some p }
    | none => field_args
  { kind := FieldKind.decimalField, args := field_args }

/-- conv_MSYear (convent.py lines 340-343). -/
def conv_MSYear (field_args : Kwargs) : Field :=
  { kind := FieldKind.textField,
    args := { field_args with
        validators := field_args.validators ++ [Validator.numberRange (some 1901) (some 2155)] } }

/-- field_args.setdefault('label', s): set the label only when absent. -/
def setdefaultLabel (field_args : Kwargs) (s : String) : Kwargs :=
  match field_args.label with
  | some _ => field_args
  | none => { field_args with label := some (some s) }

/-- conv_PGInet (convent.py lines 345-349). -/
def conv_PGInet (field_args : Kwargs) : Field :=
  let field_args := setdefaultLabel field_args "IP Address"
  { kind := FieldKind.textField,
    args := { field_args with validators := field_args.validators ++ [Validator.ipAddress] } }

/-- conv_PGMacaddr (convent.py lines 351-355). -/
def conv_PGMacaddr (field_args : Kwargs) : Field :=
  let field_args := setdefaultLabel field_args "MAC Address"
  { kind := FieldKind.textField,
    args := { field_args with validators := field_args.validators ++ [Validator.macAddress] } }

/-- conv_PGUuid (convent.py lines 357-361). -/
def conv_PGUuid (field_args : Kwargs) : Field :=
  let field_args := setdefaultLabel field_args "UUID"
  { kind := FieldKind.textField,
    args := { field_args with validators := field_args.validators ++ [Validator.uuid] } }

/-- conv_ARRAY (convent.py lines 363-365). -/
def conv_ARRAY (field_args : Kwargs) : Field :=
  { kind := FieldKind.select2TagsField, args := field_args }

/-- Dispatch to the converter selected by get_converter
(convent.py lines 283-284).  The model, mapper and prop keyword arguments
are absorbed unused by every converter's **extra, so they are not passed. -/
def applyConverter (conv : ConvId) (column : SAColumn) (field_args : Kwargs) : Field :=
  match conv with
  | ConvId.convString => conv_String column field_args
  | ConvId.convText => conv_Text column field_args
  | ConvId.convBoolean => conv_Boolean field_args
  | ConvId.convertDate => convert_date field_args
  | ConvId.convertDatetime => convert_datetime field_args
  | ConvId.convertTime => convert_time field_args
  | ConvId.handleIntegerTypes => handle_integer_types column field_args
  | ConvId.handleDecimalTypes => handle_decimal_types column field_args
  | ConvId.convMSYear => conv_MSYear field_args
  | ConvId.convPGInet => conv_PGInet field_args
  | ConvId.convPGMacaddr => conv_PGMacaddr field_args
  | ConvId.convPGUuid => conv_PGUuid field_args
  | ConvId.convARRAY => conv_ARRAY field_args

/-- Lines 166-169 of convent.py: a nullable local join column appends
Optional; otherwise any direction other than MANYTOMANY appends Required. -/
def applyRelationshipValidators (dir : Direction) (local_column : SAColumn)
    (kwargs : Kwargs) : Kwargs :=
  if local_column.nullable then
    { kwargs with validators := kwargs.validators ++ [Validator.optional] }
  else if Direction.name dir ≠ "MANYTOMANY" then
    { kwargs with validators := kwargs.validators ++ [Validator.required] }
  else kwargs

/-- Lines 176-180 of convent.py: contribute allow_blank (as the one-element
tuple (local_column.nullable,)) and the deferred query_factory, each only
when the key is not already present. -/
def applyModelParams (self : AdminModelConverter) (remote_model : String)
    (local_column : SAColumn) (kwargs : Kwargs) : Kwargs :=
  let kwargs :=
    match kwargs.allow_blank with
    | some _ => kwargs
    | none => { kwargs with allow_blank := some (BlankVal.tup local_column.nullable) }
  match kwargs.query_factory with
  | some _ => kwargs
  | none => { kwargs with query_factory := some (QueryFactory.lazyQuery self.session remote_model) }

/-- Relationship branch of AdminModelConverter.convert (convent.py lines
157-196).  Passing widget= explicitly to a constructor whose kwargs
already contain a widget key is a Python TypeError (duplicate keyword). -/
def AdminModelConverter.convertRelationship (self : AdminModelConverter) (dir : Direction)
    (key : String) (remote_model : String) (pairs : List (SAColumn × SAColumn))
    (kwargs : Kwargs) : Except PyErr (Option Field) :=
  match pairs.head? with
  | none => Except.error PyErr.indexError
  | some pair =>
    let local_column := pair.1
    let kwargs := { kwargs with label := some (self._get_label key kwargs) }
    let kwargs := { kwargs with description := some (self._get_description key kwargs) }
    match self._get_label_func key kwargs with
    | Except.error e => Except.error e
    | Except.ok gl =>
      let kwargs := { kwargs with get_label := some gl }
      let kwargs := applyRelationshipValidators dir local_column kwargs
      match self._get_field_override key with
      | some ov => Except.ok (some { kind := FieldKind.overrideField ov, args := kwargs })
      | none =>
        let kwargs := applyModelParams self remote_model local_column kwargs
        if Direction.name dir = "MANYTOONE" then
          if kwargs.widget.isSome then Except.error PyErr.typeError
          else Except.ok (some { kind := FieldKind.querySelectField,
                                 args := { kwargs with widget := some (Widget.select2 false) } })
        else if Direction.name dir = "ONETOMANY" then
          if local_column.foreign_keys = false ∧ self.view.column_hide_backrefs = true then
            Except.ok none
          else if kwargs.widget.isSome then Except.error PyErr.typeError
          else Except.ok (some { kind := FieldKind.querySelectMultipleField,
                                 args := { kwargs with widget := some (Widget.select2 true) } })
        else if Direction.name dir = "MANYTOMANY" then
          if kwargs.widget.isSome then Except.error PyErr.typeError
          else Except.ok (some { kind := FieldKind.querySelectMultipleField,
                                 args := { kwargs with widget := some (Widget.select2 true) } })
        else Except.ok none

/-- Lines 237-241 of convent.py: a unique non-primary-key column (unique
flag not already set) appends a Unique validator. -/
def applyUniqueValidator (self : AdminModelConverter) (model : String) (column : SAColumn)
    (kwargs : Kwargs) (unique : Bool) : Kwargs :=
  if column.unique = true ∧ unique = false then
    { kwargs with
        validators := kwargs.validators ++ [Validator.unique self.session model column.name] }
  else kwargs

/-- Lines 243-244 of convent.py: non-nullable, non-Boolean columns append
Required. -/
def applyRequiredValidator (column : SAColumn) (kwargs : Kwargs) : Kwargs :=
  if column.nullable = false ∧ isBooleanType column.type = false then
    { kwargs with validators := kwargs.validators ++ [Validator.required] }
  else kwargs

/-- Lines 246-249 of convent.py: label and description only for fields of
the top-level model being converted. -/
def applyLabelAndDescription (self : AdminModelConverter) (mapper : Mapper) (key : String)
    (kwargs : Kwargs) : Kwargs :=
  if self.view.model = mapper.class_ then
    let kwargs := { kwargs with label := some (self._get_label key kwargs) }
    { kwargs with description := some (self._get_description key kwargs) }
  else kwargs

/-- Lines 251-263 of convent.py: resolve the column default to a value, or
None. -/
def resolveDefault (column : SAColumn) : Option Int :=
  match column.default with
  | none => none
  | some dflt =>
    match dflt.arg with
    | none => none
    | some v =>
      if dflt.is_callable then some v
      else if dflt.is_scalar = false then none
      else some v

/-- Lines 265-266 of convent.py: store the resolved default when present. -/
def applyDefault (column : SAColumn) (kwargs : Kwargs) : Kwargs :=
  match resolveDefault column with
  | some v => { kwargs with default := some v }
  | none => kwargs

/-- Lines 268-270 of convent.py: nullable columns append Optional. -/
def applyOptionalValidator (column : SAColumn) (kwargs : Kwargs) : Kwargs :=
  if column.nullable then
    { kwargs with validators := kwargs.validators ++ [Validator.optional] }
  else kwargs

/-- Tail of the scalar branch of convert (convent.py lines 237-284), after
the primary-key handling: unique/required validators, label and
description, default, optional validator, field-type override, then
dispatch through the converter registry. -/
def AdminModelConverter.convertColumnTail (self : AdminModelConverter) (model : String)
    (mapper : Mapper) (key : String) (column : SAColumn) (kwargs : Kwargs) (unique : Bool) :
    Except PyErr (Option Field) :=
  let kwargs := applyUniqueValidator self model column kwargs unique
  let kwargs := applyRequiredValidator column kwargs
  let kwargs := applyLabelAndDescription self mapper key kwargs
  let kwargs := applyDefault column kwargs
  let kwargs := applyOptionalValidator column kwargs
  match self._get_field_override key with
  | some ov => Except.ok (some { kind := FieldKind.overrideField ov, args := kwargs })
  | none =>
    match ModelConverterBase.get_converter
        { use_mro := true, converters := adminConverters } column with
    | none => Except.ok none
    | some conv => Except.ok (some (applyConverter conv column kwargs))

/-- Scalar branch of AdminModelConverter.convert (convent.py lines
199-284): reject multi-column properties, drop foreign keys and non-Column
attributes, handle primary keys (hidden field, or inclusion via the view's
form_columns with a Unique validator), then continue with
convertColumnTail. -/
def AdminModelConverter.convertColumn (self : AdminModelConverter) (model : String)
    (mapper : Mapper) (key : String) (cols : List SAColumn) (kwargs : Kwargs)
    (hidden_pk : Bool) : Except PyErr (Option Field) :=
  match cols with
  | [column] =>
    if column.foreign_keys then Except.ok none
    else if column.is_real_column = false then Except.ok none
    else if column.primary_key then
      if hidden_pk then
        Except.ok (some { kind := FieldKind.hiddenField, args := emptyKwargs })
      else
        match self.view.form_columns with
        | none => Except.ok none
        | some form_columns =>
          if key ∈ form_columns then
            self.convertColumnTail model mapper key column
              { kwargs with
                  validators :=
                    kwargs.validators ++ [Validator.unique self.session model column.name] }
              true
          else Except.ok none
    else self.convertColumnTail model mapper key column kwargs false
  | _ => Except.error PyErr.typeError

/-- AdminModelConverter.convert (convent.py lines 147-286): initialize
kwargs from field_args, then branch on hasattr(prop, 'direction') /
hasattr(prop, 'columns'); a property with neither yields None. -/
def AdminModelConverter.convert (self : AdminModelConverter) (model : String)
    (mapper : Mapper) (prop : SAProp) (field_args : Option FieldArgs) (hidden_pk : Bool) :
    Except PyErr (Option Field) :=
  let kwargs := makeKwargs field_args
  match SAProp.direction prop with
  | some dir =>
    self.convertRelationship dir (SAProp.key prop) (SAProp.mapper_class prop)
      (SAProp.local_remote_pairs prop) kwargs
  | none =>
    match SAProp.columns prop with
    | some cols => self.convertColumn model mapper (SAProp.key prop) cols kwargs hidden_pk
    | none => Except.ok none

/-- The generated form class: type(model.__name__ + 'Form', (base_class,),
field_dict) of convent.py line 451. -/
structure FormClass where
  name : String
  base : String
  fields : List (String × Field)
deriving DecidableEq, Repr

/-- The local find of get_form (convent.py lines 419-434): resolve an
inclusion-list name to a property, unwrapping proxied properties and
falling back to hybrid properties or aliases on the model itself; an
unresolvable name raises ValueError. -/
def findProperty (props : List (String × SAProp)) (model : SAModel) (name : String) :
    Except PyErr SAProp :=
  match dictGet props name with
  | some p =>
    match SAProp.proxied_property p with
    | some pp => Except.ok pp
    | none => Except.ok p
  | none =>
    match dictGet model.attrs name with
    | some (ModelAttr.withProperty p) => Except.ok p
    | some ModelAttr.plain => Except.error PyErr.valueError
    | none => Except.error PyErr.valueError

/-- name.startswith of the single underscore character (convent.py line
444): the name's first character is an underscore. -/
def startsWithUnderscore (s : String) : Bool :=
  match s.data with
  | [] => false
  | c :: _ => c == '_'

/-- The field-collection loop of get_form (convent.py lines 441-449),
over items whose property resolution may itself have raised (the only
generator calls find lazily, before the underscore test of each item). -/
def getFormLoop (convert : String → SAProp → Except PyErr (Option Field))
    (items : List (String × Except PyErr SAProp)) (ignore_hidden : Bool) :
    Except PyErr (List (String × Field)) :=
  match items with
  | [] => Except.ok []
  | item :: rest =>
    match item.2 with
    | Except.error e => Except.error e
    | Except.ok p =>
      if ignore_hidden = true ∧ startsWithUnderscore item.1 = true then
        getFormLoop convert rest ignore_hidden
      else
        match convert item.1 p with
        | Except.error e => Except.error e
        | Except.ok none => getFormLoop convert rest ignore_hidden
        | Except.ok (some f) =>
          match getFormLoop convert rest ignore_hidden with
          | Except.error e => Except.error e
          | Except.ok fd => Except.ok ((item.1, f) :: fd)

/-- Python truthiness of an optional list argument: None and the empty
list are both falsy. -/
def truthyList (o : Option (List String)) : Bool :=
  match o with
  | none => false
  | some l => !l.isEmpty

/-- get_form (convent.py lines 380-451). -/
def get_form (model : SAModel) (converter : AdminModelConverter) (base_class : String)
    (only : Option (List String)) (exclude : Option (List String))
    (field_args : Option (List (String × FieldArgs)))
    (hidden_pk : Bool) (ignore_hidden : Bool) : Except PyErr FormClass :=
  match model.sa_class_manager with
  | none => Except.error PyErr.typeError
  | some mapper =>
    let field_args := field_args.getD []
    let properties : List (String × SAProp) :=
      mapper.properties.map (fun p => (SAProp.key p, p))
    let items : List (String × Except PyErr SAProp) :=
      if truthyList only then
        (only.getD []).map (fun x => (x, findProperty properties model x))
      else if truthyList exclude then
        (properties.filter (fun pr => !(exclude.getD []).contains pr.1)).map
          (fun pr => (pr.1, Except.ok pr.2))
      else properties.map (fun pr => (pr.1, Except.ok pr.2))
    match getFormLoop
        (fun name p =>
          converter.convert model.className mapper p (dictGet field_args name) hidden_pk)
        items ignore_hidden with
    | Except.error e => Except.error e
    | Except.ok fd =>
      Except.ok { name := model.className ++ "Form", base := base_class, fields := fd }

/-- Settings object for inline form administration (convent.py lines
58-102).  Its constructor stores the model, presets the _defaults
attributes to None, then applies the keyword options. -/
structure InlineFormAdmin where
  model : String
  form_columns : Option (List String)
  form_excluded_columns : Option (List String)
  form_args : Option (List (String × FieldArgs))
deriving DecidableEq, Repr

/-- Keyword options accepted by InlineFormAdmin(model, **kwargs): each of
the _defaults keys may be supplied or absent. -/
structure InlineOptions where
  form_columns : Option (List String)
  form_excluded_columns : Option (List String)
  form_args : Option (List (String × FieldArgs))
deriving DecidableEq, Repr

/-- InlineFormAdmin.__init__ (convent.py lines 70-86): store the model,
default every _defaults attribute to None, then set the supplied keyword
options. -/
def InlineFormAdmin.init (model : String) (kwargs : InlineOptions) : InlineFormAdmin :=
  { model := model,
    form_columns := kwargs.form_columns,
    form_excluded_columns := kwargs.form_excluded_columns,
    form_args := kwargs.form_args }

/-- The three shapes of argument the docstring of get_info documents
(convent.py lines 487-493): a (model, options-dict) tuple, an
InlineFormAdmin instance, or a bare model class. -/
inductive InlinePyObj where
  | tupleArg (model : String) (options : InlineOptions)
  | settings (ifa : InlineFormAdmin)
  | modelClass (model : String)

/-- The inline-model helper (convent.py lines 453-461). -/
structure InlineModelConverterBase where
  view : View

/-- InlineModelConverterBase.get_info (convent.py lines 483-500): a tuple
is turned into a settings object, a settings object is passed through, and
anything else - including the bare model class the docstring documents -
falls off the end and returns None. -/
def InlineModelConverterBase.get_info (_self : InlineModelConverterBase) (p : InlinePyObj) :
    Option InlineFormAdmin :=
  match p with
  | InlinePyObj.tupleArg m opts => some (InlineFormAdmin.init m opts)
  | InlinePyObj.settings ifa => some ifa
  | InlinePyObj.modelClass _ => none

/-- Shorthand for a plain scalar column property: no direction attribute,
a single mapped column, no proxy. -/
def scalarProp (key : String) (column : SAColumn) : SAProp :=
  SAProp.mk key none "" [] (some [column]) none

/-- A fully-populated demonstration view for the User model. -/
def okView : View :=
  { model := "User", prettify_name := fun n => "P" ++ n, column_labels_attr := none,
    column_descriptions := [], form_overrides := none, form_columns := some ["id"],
    column_hide_backrefs := false, form_formatters := some [] }

/-- Demonstration converter over okView. -/
def okConv : AdminModelConverter := { session := "sess", view := okView }

/-- Demonstration mapper for the User model. -/
def okMapper : Mapper := { class_ := "User", properties := [] }

/-- A SQLAlchemy Integer type instance. -/
def intType : SATypeInst :=
  { cls := { concrete := { module := "sqlalchemy.types", name := "Integer" },
             ancestors := [{ module := "sqlalchemy.types", name := "TypeEngine" }] },
    enums := none, length := none, unsigned := false, scale := none }

/-- A SQLAlchemy String(50) type instance. -/
def strType : SATypeInst :=
  { cls := { concrete := { module := "sqlalchemy.types", name := "String" },
             ancestors := [{ module := "sqlalchemy.types", name := "TypeEngine" }] },
    enums := none, length := some 50, unsigned := false, scale := none }

/-- Demonstration primary-key column id. -/
def idCol : SAColumn :=
  { name := "id", type := intType, nullable := false, primary_key := true,
    foreign_keys := false, unique := false, is_real_column := true, default := none }

/-- Demonstration plain non-nullable string column name. -/
def nameCol : SAColumn :=
  { name := "name", type := strType, nullable := false, primary_key := false,
    foreign_keys := false, unique := false, is_real_column := true, default := none }

/-- Demonstration non-nullable foreign-key column user_id, the local join
column of a relationship. -/
def userIdCol : SAColumn :=
  { name := "user_id", type := intType, nullable := false, primary_key := false,
    foreign_keys := true, unique := false, is_real_column := true, default := none }

/-- Nullable variant of the local join column. -/
def userIdColN : SAColumn := { userIdCol with nullable := true }

/-- A non-nullable primary-key string column code. -/
def c6pkCol : SAColumn :=
  { name := "code", type := strType, nullable := false, primary_key := true,
    foreign_keys := false, unique := false, is_real_column := true, default := none }

/-- View whose column-label map is non-empty but has no entry for foo. -/
def c4view : View := { okView with column_labels_attr := some [("other", "X")] }

/-- Converter over c4view. -/
def c4conv : AdminModelConverter := { session := "sess", view := c4view }

/-- View that does not define the form_formatters attribute. -/
def c7view : View := { okView with form_formatters := none }

/-- Converter over c7view. -/
def c7conv : AdminModelConverter := { session := "sess", view := c7view }

/-- A many-to-one relationship property named user. -/
def userRelProp : SAProp :=
  SAProp.mk "user" (some Direction.manytoone) "Remote" [(userIdCol, idCol)] none none

/-- The same relationship with a nullable local join column. -/
def userRelPropN : SAProp :=
  SAProp.mk "user" (some Direction.manytoone) "Remote" [(userIdColN, idCol)] none none

/-- Fallback used when extracting the field out of a conversion result. -/
def fallbackField : Field := { kind := FieldKind.hiddenField, args := emptyKwargs }

/-- Extract the field from a conversion result, with a fallback. -/
def extractField (r : Except PyErr (Option Field)) : Field :=
  match r with
  | Except.ok (some f) => f
  | _ => fallbackField

/-- The field produced for the name column of User. -/
def c6field : Field :=
  extractField (okConv.convert "User" okMapper (scalarProp "name" nameCol) none false)

/-- The field produced for the user relationship of User. -/
def c3field : Field :=
  extractField (okConv.convert "User" okMapper userRelProp none false)

/-- The field produced for the user relationship with a nullable local
column. -/
def c9field : Field :=
  extractField (okConv.convert "User" okMapper userRelPropN none false)

/-- A model whose only property is the hidden-named column _secret. -/
def c10model : SAModel :=
  { className := "User",
    sa_class_manager := some { class_ := "User", properties := [scalarProp "_secret" nameCol] },
    attrs := [] }

/-- The form generated for c10model with only = [_secret]. -/
def c10form : FormClass := { name := "UserForm", base := "BaseForm", fields := [] }

/-- The first qualified-identifier scan is a first-match search over the
type chain. -/
theorem searchByTypeString_eq {κ : Type} (cs : List (String × κ)) (ts : List TypeId) :
    searchByTypeString cs ts = ts.findSome? (fun t => dictGet cs (typeString t)) := by
  induction ts with
  | nil => rfl
  | cons t ts ih =>
    simp only [searchByTypeString, List.findSome?]
    cases dictGet cs (typeString t) <;> simp [ih]

/-- The second short-name scan is a first-match search over the type
chain. -/
theorem searchByName_eq {κ : Type} (cs : List (String × κ)) (ts : List TypeId) :
    searchByName cs ts = ts.findSome? (fun t => dictGet cs t.name) := by
  induction ts with
  | nil => rfl
  | cons t ts ih =>
    simp only [searchByName, List.findSome?]
    cases dictGet cs t.name <;> simp [ih]

/-- A first-match search over a list with no hits yields none. -/
theorem findSome_eq_none_of_all {α β : Type} (f : α → Option β) (l : List α)
    (h : ∀ a ∈ l, f a = none) : l.findSome? f = none := by
  induction l with
  | nil => rfl
  | cons a l ih =>
    simp only [List.findSome?]
    rw [h a (List.mem_cons_self a l)]
    exact ih (fun b hb => h b (List.mem_cons_of_mem a hb))

/-- A first-match search over a list containing a hit yields a hit. -/
theorem findSome_isSome_of_mem {α β : Type} (f : α → Option β) (l : List α) (a : α)
    (ha : a ∈ l) (hf : (f a).isSome = true) : (l.findSome? f).isSome = true := by
  induction l with
  | nil => cases ha
  | cons x l ih =>
    simp only [List.findSome?]
    cases hx : f x with
    | some b => rfl
    | none =>
      rcases List.mem_cons.mp ha with rfl | hmem
      · rw [hx] at hf; cases hf
      · exact ih hmem

/-- applyUniqueValidator appends exactly the conditional Unique validator. -/
theorem applyUniqueValidator_validators (self : AdminModelConverter) (model : String)
    (column : SAColumn) (k : Kwargs) (u : Bool) :
    (applyUniqueValidator self model column k u).validators =
      k.validators ++ (if column.unique = true ∧ u = false
        then [Validator.unique self.session model column.name] else []) := by
  unfold applyUniqueValidator
  split <;> simp

/-- applyRequiredValidator appends exactly the conditional Required
validator. -/
theorem applyRequiredValidator_validators (column : SAColumn) (k : Kwargs) :
    (applyRequiredValidator column k).validators =
      k.validators ++ (if column.nullable = false ∧ isBooleanType column.type = false
        then [Validator.required] else []) := by
  unfold applyRequiredValidator
  split <;> simp

/-- applyOptionalValidator appends exactly the conditional Optional
validator. -/
theorem applyOptionalValidator_validators (column : SAColumn) (k : Kwargs) :
    (applyOptionalValidator column k).validators =
      k.validators ++ (if column.nullable = true then [Validator.optional] else []) := by
  unfold applyOptionalValidator
  split <;> simp_all

/-- Label and description assignment does not touch the validators list. -/
theorem applyLabelAndDescription_validators (self : AdminModelConverter) (mapper : Mapper)
    (key : String) (k : Kwargs) :
    (applyLabelAndDescription self mapper key k).validators = k.validators := by
  unfold applyLabelAndDescription
  split <;> rfl

/-- Default-value resolution does not touch the validators list. -/
theorem applyDefault_validators (column : SAColumn) (k : Kwargs) :
    (applyDefault column k).validators = k.validators := by
  unfold applyDefault
  split <;> rfl

/-- Each registered converter only appends to the validators list it
receives. -/
theorem applyConverter_validators (conv : ConvId) (column : SAColumn) (k : Kwargs) :
    ∃ t, (applyConverter conv column k).args.validators = k.validators ++ t := by
  cases conv with
  | convString =>
    simp only [applyConverter, conv_String]
    cases column.type.enums with
    | some es => exact ⟨[Validator.anyOf es], rfl⟩
    | none =>
      simp only [_string_common]
      cases column.type.length with
      | none => exact ⟨[], by simp⟩
      | some l =>
        by_cases hl : l ≠ 0
        · simp only [if_pos hl]; exact ⟨[Validator.length l], rfl⟩
        · simp only [if_neg hl]; exact ⟨[], by simp⟩
  | convText =>
    simp only [applyConverter, conv_Text, _string_common]
    cases column.type.length with
    | none => exact ⟨[], by simp⟩
    | some l =>
      by_cases hl : l ≠ 0
      · simp only [if_pos hl]; exact ⟨[Validator.length l], rfl⟩
      · simp only [if_neg hl]; exact ⟨[], by simp⟩
  | convBoolean => exact ⟨[], by simp [applyConverter, conv_Boolean]⟩
  | convertDate => exact ⟨[], by simp [applyConverter, convert_date]⟩
  | convertDatetime => exact ⟨[], by simp [applyConverter, convert_datetime]⟩
  | convertTime => exact ⟨[], by simp [applyConverter, convert_time]⟩
  | handleIntegerTypes =>
    simp only [applyConverter, handle_integer_types]
    by_cases hu : column.type.unsigned
    · simp only [if_pos hu]; exact ⟨[Validator.numberRange (some 0) none], rfl⟩
    · simp only [if_neg hu]; exact ⟨[], by simp⟩
  | handleDecimalTypes =>
    simp only [applyConverter, handle_decimal_types]
    cases column.type.scale with
    | none => exact ⟨[], by simp⟩
    | some v => cases v <;> exact ⟨[], by simp⟩
  | convMSYear =>
    exact ⟨[Validator.numberRange (some 1901) (some 2155)], by simp [applyConverter, conv_MSYear]⟩
  | convPGInet =>
    simp only [applyConverter, conv_PGInet, setdefaultLabel]
    cases k.label <;> exact ⟨[Validator.ipAddress], rfl⟩
  | convPGMacaddr =>
    simp only [applyConverter, conv_PGMacaddr, setdefaultLabel]
    cases k.label <;> exact ⟨[Validator.macAddress], rfl⟩
  | convPGUuid =>
    simp only [applyConverter, conv_PGUuid, setdefaultLabel]
    cases k.label <;> exact ⟨[Validator.uuid], rfl⟩
  | convARRAY => exact ⟨[], by simp [applyConverter, conv_ARRAY]⟩

/-- Any field produced by the scalar conversion tail carries the incoming
validators followed by the conditional Unique, Required and Optional
validators of lines 237-270, possibly extended further by the selected
converter. -/
theorem convertColumnTail_validators (self : AdminModelConverter) (model : String)
    (mapper : Mapper) (key : String) (column : SAColumn) (k : Kwargs) (u : Bool) (f : Field)
    (h : self.convertColumnTail model mapper key column k u = Except.ok (some f)) :
    ∃ t, f.args.validators =
      k.validators
        ++ (if column.unique = true ∧ u = false
              then [Validator.unique self.session model column.name] else [])
        ++ (if column.nullable = false ∧ isBooleanType column.type = false
              then [Validator.required] else [])
        ++ (if column.nullable = true then [Validator.optional] else [])
        ++ t := by
  have KV : (applyOptionalValidator column (applyDefault column
      (applyLabelAndDescription self mapper key (applyRequiredValidator column
        (applyUniqueValidator self model column k u))))).validators =
      k.validators
        ++ (if column.unique = true ∧ u = false
              then [Validator.unique self.session model column.name] else [])
        ++ (if column.nullable = false ∧ isBooleanType column.type = false
              then [Validator.required] else [])
        ++ (if column.nullable = true then [Validator.optional] else []) := by
    rw [applyOptionalValidator_validators, applyDefault_validators,
      applyLabelAndDescription_validators, applyRequiredValidator_validators,
      applyUniqueValidator_validators]
  simp only [AdminModelConverter.convertColumnTail] at h
  cases hov : self._get_field_override key with
  | some ov =>
    rw [hov] at h
    simp only [Except.ok.injEq, Option.some.injEq] at h
    subst h
    exact ⟨[], by simp [KV]⟩
  | none =>
    rw [hov] at h
    cases hc : ModelConverterBase.get_converter
        { use_mro := true, converters := adminConverters } column with
    | none => rw [hc] at h; cases h
    | some conv =>
      rw [hc] at h
      simp only [Except.ok.injEq, Option.some.injEq] at h
      subst h
      obtain ⟨t, ht⟩ := applyConverter_validators conv column _
      exact ⟨t, by rw [ht, KV]⟩

/-- Any field produced by the relationship branch without a field-type
override carries the incoming validators followed by exactly the
Optional / Required choice of lines 166-169, and its allow_blank is the
one-element tuple on the local column's nullability whenever the key was
not supplied by the caller. -/
theorem convertRelationship_spec (self : AdminModelConverter) (dir : Direction)
    (key : String) (remote_model : String) (pairs : List (SAColumn × SAColumn))
    (k : Kwargs) (lc rc : SAColumn) (f : Field)
    (hpair : pairs.head? = some (lc, rc))
    (hov : self._get_field_override key = none)
    (h : self.convertRelationship dir key remote_model pairs k = Except.ok (some f)) :
    f.args.validators =
      k.validators ++ (if lc.nullable = true then [Validator.optional]
        else if Direction.name dir ≠ "MANYTOMANY" then [Validator.required] else []) ∧
    f.args.allow_blank =
      (match k.allow_blank with
       | none => some (BlankVal.tup lc.nullable)
       | some ab => some ab) := by
  simp only [AdminModelConverter.convertRelationship] at h
  rw [hpair] at h
  simp only at h
  cases hgl : self._get_label_func key
      { k with label := some (self._get_label key k),
               description :=
                 some (self._get_description key
                   { k with label := some (self._get_label key k) }) } with
  | error e => rw [hgl] at h; cases h
  | ok gl =>
    rw [hgl] at h
    simp only at h
    rw [hov] at h
    have hval : ∀ kk : Kwargs,
        (applyRelationshipValidators dir lc kk).validators =
          kk.validators ++ (if lc.nullable = true then [Validator.optional]
            else if Direction.name dir ≠ "MANYTOMANY" then [Validator.required] else []) := by
      intro kk
      unfold applyRelationshipValidators
      by_cases hn : lc.nullable = true
      · simp [hn]
      · simp only [Bool.not_eq_true] at hn
        rw [hn]
        by_cases hd : Direction.name dir ≠ "MANYTOMANY"
        · simp [hd]
        · simp [hd]
    have hab : ∀ kk : Kwargs,
        (applyModelParams self remote_model lc kk).allow_blank =
          (match kk.allow_blank with
           | none => some (BlankVal.tup lc.nullable)
           | some ab => some ab) := by
      intro kk
      unfold applyModelParams
      cases hk : kk.allow_blank <;> cases hq : kk.query_factory <;> simp [hk, hq]
    have habv : ∀ kk : Kwargs,
        (applyModelParams self remote_model lc kk).validators = kk.validators := by
      intro kk
      unfold applyModelParams
      cases hk : kk.allow_blank <;> cases hq : kk.query_factory <;> simp [hk, hq]
    have hrab : ∀ kk : Kwargs,
        (applyRelationshipValidators dir lc kk).allow_blank = kk.allow_blank := by
      intro kk
      unfold applyRelationshipValidators
      split
      · rfl
      · split <;> rfl
    -- the three constructor outcomes
    by_cases h1 : Direction.name dir = "MANYTOONE"
    · rw [if_pos h1] at h
      by_cases hw : (applyModelParams self remote_model lc (applyRelationshipValidators dir lc
          { k with label := some (self._get_label key k),
                   description :=
                     some (self._get_description key
                       { k with label := some (self._get_label key k) }),
                   get_label := some gl })).widget.isSome
      · rw [if_pos hw] at h; cases h
      · rw [if_neg hw] at h
        simp only [Except.ok.injEq, Option.some.injEq] at h
        subst h
        constructor
        · show (applyModelParams self remote_model lc _).validators = _
          rw [habv, hval]
        · show (applyModelParams self remote_model lc _).allow_blank = _
          rw [hab, hrab]
    · rw [if_neg h1] at h
      by_cases h2 : Direction.name dir = "ONETOMANY"
      · rw [if_pos h2] at h
        by_cases hbk : lc.foreign_keys = false ∧ self.view.column_hide_backrefs = true
        · rw [if_pos hbk] at h; cases h
        · rw [if_neg hbk] at h
          by_cases hw : (applyModelParams self remote_model lc (applyRelationshipValidators dir lc
              { k with label := some (self._get_label key k),
                       description :=
                         some (self._get_description key
                           { k with label := some (self._get_label key k) }),
                       get_label := some gl })).widget.isSome
          · rw [if_pos hw] at h; cases h
          · rw [if_neg hw] at h
            simp only [Except.ok.injEq, Option.some.injEq] at h
            subst h
            constructor
            · show (applyModelParams self remote_model lc _).validators = _
              rw [habv, hval]
            · show (applyModelParams self remote_model lc _).allow_blank = _
              rw [hab, hrab]
      · rw [if_neg h2] at h
        by_cases h3 : Direction.name dir = "MANYTOMANY"
        · rw [if_pos h3] at h
          by_cases hw : (applyModelParams self remote_model lc (applyRelationshipValidators dir lc
              { k with label := some (self._get_label key k),
                       description :=
                         some (self._get_description key
                           { k with label := some (self._get_label key k) }),
                       get_label := some gl })).widget.isSome
          · rw [if_pos hw] at h; cases h
          · rw [if_neg hw] at h
            simp only [Except.ok.injEq, Option.some.injEq] at h
            subst h
            constructor
            · show (applyModelParams self remote_model lc _).validators = _
              rw [habv, hval]
            · show (applyModelParams self remote_model lc _).allow_blank = _
              rw [hab, hrab]
        · rw [if_neg h3] at h; cases h

/-- With ignore_hidden enabled, the collection loop never emits a field
under a name that starts with an underscore. -/
theorem getFormLoop_hidden_excluded
    (convert : String → SAProp → Except PyErr (Option Field))
    (items : List (String × Except PyErr SAProp)) (fd : List (String × Field))
    (h : getFormLoop convert items true = Except.ok fd)
    (name : String) (hn : startsWithUnderscore name = true) :
    dictGet fd name = none := by
  induction items generalizing fd with
  | nil =>
    simp only [getFormLoop, Except.ok.injEq] at h
    subst h
    rfl
  | cons item rest ih =>
    simp only [getFormLoop] at h
    cases hp : item.2 with
    | error e => rw [hp] at h; cases h
    | ok p =>
      rw [hp] at h
      simp only [true_and] at h
      by_cases hs : startsWithUnderscore item.1 = true
      · rw [if_pos hs] at h
        exact ih fd h
      · rw [if_neg hs] at h
        cases hc : convert item.1 p with
        | error e => rw [hc] at h; cases h
        | ok of =>
          rw [hc] at h
          cases of with
          | none => exact ih fd h
          | some f =>
            cases hr : getFormLoop convert rest true with
            | error e => rw [hr] at h; cases h
            | ok fd2 =>
              rw [hr] at h
              simp only [Except.ok.injEq] at h
              subst h
              have hne : (item.1 == name) = false := by
                rw [beq_eq_false_iff_ne]
                intro e
                rw [e] at hs
                exact hs hn
              simp only [dictGet, List.find?]
              rw [hne]
              exact ih fd2 hr

/-- C1: with inheritance-aware lookup, get_converter scans the entire
ancestor chain (most derived first) by fully-qualified module+name
identifier before scanning the entire chain again by short name, so a
qualified-name registration anywhere in the chain takes priority over a
short-name registration anywhere in the chain, and if neither pass
matches, None is returned. -/
theorem C1_get_converter_two_pass {κ : Type} (cs : List (String × κ)) (column : SAColumn) :
    ModelConverterBase.get_converter { use_mro := true, converters := cs } column =
      Option.orElse
        ((PyClass.getmro column.type.cls).findSome? (fun t => dictGet cs (typeString t)))
        (fun _ => (PyClass.getmro column.type.cls).findSome? (fun t => dictGet cs t.name)) ∧
    ((∃ t, t ∈ PyClass.getmro column.type.cls ∧ (dictGet cs (typeString t)).isSome = true) →
      ModelConverterBase.get_converter { use_mro := true, converters := cs } column =
        (PyClass.getmro column.type.cls).findSome? (fun t => dictGet cs (typeString t))) ∧
    ((∀ t, t ∈ PyClass.getmro column.type.cls →
        dictGet cs (typeString t) = none ∧ dictGet cs t.name = none) →
      ModelConverterBase.get_converter { use_mro := true, converters := cs } column = none) := by
  have e1 : ModelConverterBase.get_converter { use_mro := true, converters := cs } column =
      Option.orElse
        ((PyClass.getmro column.type.cls).findSome? (fun t => dictGet cs (typeString t)))
        (fun _ => (PyClass.getmro column.type.cls).findSome? (fun t => dictGet cs t.name)) := by
    simp only [ModelConverterBase.get_converter, if_true]
    rw [searchByTypeString_eq, searchByName_eq]
    cases hq : (PyClass.getmro column.type.cls).findSome? (fun t => dictGet cs (typeString t)) <;>
      simp [Option.orElse]
  refine ⟨e1, ?_, ?_⟩
  · rintro ⟨t, ht, hsome⟩
    have hs := findSome_isSome_of_mem (fun t => dictGet cs (typeString t)) _ t ht hsome
    rw [e1]
    cases hq : (PyClass.getmro column.type.cls).findSome? (fun t => dictGet cs (typeString t)) with
    | none => rw [hq] at hs; cases hs
    | some c => simp [Option.orElse]
  · intro hall
    rw [e1,
      findSome_eq_none_of_all (fun t => dictGet cs (typeString t)) _ (fun a ha => (hall a ha).1),
      findSome_eq_none_of_all (fun t => dictGet cs t.name) _ (fun a ha => (hall a ha).2)]
    rfl

/-- Witness for C1 at a converter dictionary with no registrations. -/
theorem C1_get_converter_two_pass_witness :
    ModelConverterBase.get_converter
      { use_mro := true, converters := ([] : List (String × Nat)) } idCol = none :=
  (C1_get_converter_two_pass [] idCol).2.2 (fun _ _ => ⟨rfl, rfl⟩)

/-- C2: for a genuine (non-foreign-key, real) scalar primary-key column,
hidden_pk true emits a hidden field; hidden_pk false yields no field at
all unless the property name is in the view's form_columns inclusion
list, in which case any resulting field carries a uniqueness validator. -/
theorem C2_primary_key_handling (self : AdminModelConverter) (model : String) (mapper : Mapper)
    (key : String) (column : SAColumn) (fa : Option FieldArgs)
    (hfk : column.foreign_keys = false) (hreal : column.is_real_column = true)
    (hpk : column.primary_key = true) :
    (self.convert model mapper (scalarProp key column) fa true =
        Except.ok (some { kind := FieldKind.hiddenField, args := emptyKwargs })) ∧
    (self.view.form_columns = none →
      self.convert model mapper (scalarProp key column) fa false = Except.ok none) ∧
    (∀ fcs, self.view.form_columns = some fcs → key ∉ fcs →
      self.convert model mapper (scalarProp key column) fa false = Except.ok none) ∧
    (∀ fcs f, self.view.form_columns = some fcs → key ∈ fcs →
      self.convert model mapper (scalarProp key column) fa false = Except.ok (some f) →
      Validator.unique self.session model column.name ∈ f.args.validators) := by
  have hred : ∀ hp : Bool, self.convert model mapper (scalarProp key column) fa hp =
      self.convertColumn model mapper key [column] (makeKwargs fa) hp := by
    intro hp
    simp only [AdminModelConverter.convert, scalarProp, SAProp.direction, SAProp.columns,
      SAProp.key]
  refine ⟨?_, ?_, ?_, ?_⟩
  · rw [hred]
    simp [AdminModelConverter.convertColumn, hfk, hreal, hpk]
  · intro hfc
    rw [hred]
    simp [AdminModelConverter.convertColumn, hfk, hreal, hpk, hfc]
  · intro fcs hfc hkey
    rw [hred]
    simp [AdminModelConverter.convertColumn, hfk, hreal, hpk, hfc, hkey]
  · intro fcs f hfc hkey hconv
    rw [hred] at hconv
    simp only [AdminModelConverter.convertColumn, hfk, hreal, hpk, hfc, if_pos hkey,
      Bool.false_eq_true, if_false] at hconv
    obtain ⟨t, ht⟩ := convertColumnTail_validators self model mapper key column _ true f hconv
    rw [ht]
    simp

/-- Witness for C2: the id primary key of User with hidden_pk = true. -/
theorem C2_primary_key_handling_witness :
    okConv.convert "User" okMapper (scalarProp "id" idCol) none true =
      Except.ok (some { kind := FieldKind.hiddenField, args := emptyKwargs }) :=
  (C2_primary_key_handling okConv "User" okMapper "id" idCol none rfl rfl rfl).1

/-- C3: for a relationship converted without a field-type override, a
nullable local join column yields an Optional validator, a non-nullable
one yields a Required validator, except that a many-to-many relationship
never receives a Required validator (beyond any passed in) regardless of
local-column nullability. -/
theorem C3_relationship_validators (self : AdminModelConverter) (model : String)
    (mapper : Mapper) (key : String) (dir : Direction) (mc : String)
    (pairs : List (SAColumn × SAColumn)) (cols : Option (List SAColumn))
    (prox : Option SAProp) (fa : Option FieldArgs) (hpk : Bool)
    (lc rc : SAColumn) (f : Field)
    (hpair : pairs.head? = some (lc, rc))
    (hov : self._get_field_override key = none)
    (hok : self.convert model mapper (SAProp.mk key (some dir) mc pairs cols prox) fa hpk =
      Except.ok (some f)) :
    (lc.nullable = true → Validator.optional ∈ f.args.validators) ∧
    (lc.nullable = false → dir ≠ Direction.manytomany →
      Validator.required ∈ f.args.validators) ∧
    (dir = Direction.manytomany → Validator.required ∉ (makeKwargs fa).validators →
      Validator.required ∉ f.args.validators) := by
  simp only [AdminModelConverter.convert, SAProp.direction, SAProp.key, SAProp.mapper_class,
    SAProp.local_remote_pairs] at hok
  obtain ⟨hval, _⟩ :=
    convertRelationship_spec self dir key mc pairs (makeKwargs fa) lc rc f hpair hov hok
  refine ⟨?_, ?_, ?_⟩
  · intro hn
    rw [hval]
    simp [hn]
  · intro hn hd
    have hname : Direction.name dir ≠ "MANYTOMANY" := by
      cases dir <;> simp_all [Direction.name]
    rw [hval]
    simp [hn, hname]
  · intro hd hnot
    subst hd
    rw [hval]
    by_cases hn : lc.nullable = true
    · simp [hn, List.mem_append, hnot]
    · simp [hn, Direction.name, hnot]

/-- Witness for C3: a non-nullable many-to-one relationship gets Required. -/
theorem C3_relationship_validators_witness : Validator.required ∈ c3field.args.validators :=
  ((C3_relationship_validators okConv "User" okMapper "user" Direction.manytoone "Remote"
      [(userIdCol, idCol)] none none none false userIdCol idCol c3field rfl rfl
      (by rfl)).2.1 rfl (by decide))

/-- C4 as stated is false: with a non-empty column-label map lacking an
entry for the name and no explicit label, _get_label returns None, not
the prettified name. -/
theorem C4_counterexample :
    emptyKwargs.label = none ∧
    c4conv.view.column_labels_attr = some [("other", "X")] ∧
    dictGet [("other", "X")] "foo" = none ∧
    AdminModelConverter._get_label c4conv "foo" emptyKwargs = none ∧
    AdminModelConverter._get_label c4conv "foo" emptyKwargs ≠
      some (c4conv.view.prettify_name "foo") := by
  refine ⟨rfl, rfl, rfl, rfl, ?_⟩
  decide

/-- C4 amended: the label is the explicit per-field-args label if present;
otherwise, if the view's column-label map is absent or empty, the
prettified name; otherwise the map's entry for the name - which is None
when the map has no such entry, with no fallback to prettification. -/
theorem C4_label_precedence (self : AdminModelConverter) (name : String) (fa : Kwargs) :
    (∀ v, fa.label = some v → self._get_label name fa = v) ∧
    (fa.label = none → self.view.column_labels_attr.getD [] = [] →
      self._get_label name fa = some (self.view.prettify_name name)) ∧
    (∀ m, fa.label = none → self.view.column_labels_attr = some m → m ≠ [] →
      self._get_label name fa = dictGet m name) := by
  refine ⟨?_, ?_, ?_⟩
  · intro v hv
    simp [AdminModelConverter._get_label, hv]
  · intro h1 h2
    simp [AdminModelConverter._get_label, h1, h2]
  · intro m h1 h2 h3
    cases m with
    | nil => exact absurd rfl h3
    | cons a as => simp [AdminModelConverter._get_label, h1, h2]

/-- Witness for C4: with no explicit label and no column-label map the
prettified name is returned. -/
theorem C4_label_precedence_witness :
    AdminModelConverter._get_label okConv "foo" emptyKwargs =
      some (okView.prettify_name "foo") :=
  (C4_label_precedence okConv "foo" emptyKwargs).2.1 rfl rfl

/-- C5: a scalar property mapped to more than one storage column makes
convert raise TypeError immediately instead of silently dropping the
property. -/
theorem C5_multi_column_raises (self : AdminModelConverter) (model : String) (mapper : Mapper)
    (key mc : String) (pairs : List (SAColumn × SAColumn)) (cols : List SAColumn)
    (prox : Option SAProp) (fa : Option FieldArgs) (hpk : Bool)
    (h : 2 ≤ cols.length) :
    self.convert model mapper (SAProp.mk key none mc pairs (some cols) prox) fa hpk =
      Except.error PyErr.typeError := by
  simp only [AdminModelConverter.convert, SAProp.direction, SAProp.columns, SAProp.key]
  cases cols with
  | nil => exact absurd h (by simp)
  | cons a t =>
    cases t with
    | nil => exact absurd h (by simp)
    | cons b t2 => simp [AdminModelConverter.convertColumn]

/-- Witness for C5: a two-column property raises TypeError. -/
theorem C5_multi_column_raises_witness :
    okConv.convert "User" okMapper
      (SAProp.mk "pair" none "" [] (some [nameCol, nameCol]) none) none false =
      Except.error PyErr.typeError :=
  C5_multi_column_raises okConv "User" okMapper "pair" "" [] [nameCol, nameCol] none none
    false (by decide)

/-- C6 as stated is false: a non-nullable, non-boolean primary-key column
converted with hidden_pk = true produces a field (the hidden field), yet
that field carries no Required validator. -/
theorem C6_counterexample :
    okConv.convert "User" okMapper (scalarProp "code" c6pkCol) none true =
      Except.ok (some { kind := FieldKind.hiddenField, args := emptyKwargs }) ∧
    c6pkCol.nullable = false ∧
    isBooleanType c6pkCol.type = false ∧
    Validator.required ∉
      ({ kind := FieldKind.hiddenField, args := emptyKwargs } : Field).args.validators := by
  refine ⟨rfl, rfl, ?_, ?_⟩ <;> decide

/-- C6 amended: for every single-column scalar property that produces a
field other than through the hidden primary-key path, a non-nullable
non-boolean column gets a Required validator appended, a nullable column
gets an Optional validator appended, and in the primary-key-inclusion
case the uniqueness validator and (for a nullable column) the Optional
validator are still appended. -/
theorem C6_scalar_validators (self : AdminModelConverter) (model : String) (mapper : Mapper)
    (key : String) (column : SAColumn) (fa : Option FieldArgs) (hpk : Bool) (f : Field)
    (hhide : column.primary_key = true → hpk = false)
    (hok : self.convert model mapper (scalarProp key column) fa hpk = Except.ok (some f)) :
    (column.nullable = false → isBooleanType column.type = false →
      Validator.required ∈ f.args.validators) ∧
    (column.nullable = true → Validator.optional ∈ f.args.validators) ∧
    (∀ fcs, column.primary_key = true → self.view.form_columns = some fcs → key ∈ fcs →
      Validator.unique self.session model column.name ∈ f.args.validators ∧
      (column.nullable = true → Validator.optional ∈ f.args.validators)) := by
  have hcc : self.convertColumn model mapper key [column] (makeKwargs fa) hpk =
      Except.ok (some f) := by
    simpa only [AdminModelConverter.convert, scalarProp, SAProp.direction, SAProp.columns,
      SAProp.key] using hok
  cases hfkb : column.foreign_keys with
  | true =>
    exfalso
    simp [AdminModelConverter.convertColumn, hfkb] at hcc
  | false =>
    cases hrealb : column.is_real_column with
    | false =>
      exfalso
      simp [AdminModelConverter.convertColumn, hfkb, hrealb] at hcc
    | true =>
      cases hpkb : column.primary_key with
      | true =>
        have hp0 : hpk = false := hhide hpkb
        subst hp0
        cases hfc : self.view.form_columns with
        | none =>
          exfalso
          simp [AdminModelConverter.convertColumn, hfkb, hrealb, hpkb, hfc] at hcc
        | some fcs0 =>
          by_cases hkin : key ∈ fcs0
          · simp only [AdminModelConverter.convertColumn, hfkb, hrealb, hpkb, hfc,
              if_pos hkin, Bool.false_eq_true, if_false] at hcc
            obtain ⟨t, ht⟩ :=
              convertColumnTail_validators self model mapper key column _ true f hcc
            refine ⟨?_, ?_, ?_⟩
            · intro hn hb
              rw [ht]
              simp [hn, hb]
            · intro hn
              rw [ht]
              simp [hn]
            · intro fcs hpkc hfc2 hkey2
              constructor
              · rw [ht]
                simp
              · intro hn
                rw [ht]
                simp [hn]
          · exfalso
            simp [AdminModelConverter.convertColumn, hfkb, hrealb, hpkb, hfc, hkin] at hcc
      | false =>
        simp only [AdminModelConverter.convertColumn, hfkb, hrealb, hpkb,
          Bool.false_eq_true, if_false] at hcc
        obtain ⟨t, ht⟩ :=
          convertColumnTail_validators self model mapper key column _ false f hcc
        refine ⟨?_, ?_, ?_⟩
        · intro hn hb
          rw [ht]
          simp [hn, hb]
        · intro hn
          rw [ht]
          simp [hn]
        · intro fcs hpkc
          exact absurd hpkc (by simp)

/-- Witness for C6: the non-nullable name column of User gets Required. -/
theorem C6_scalar_validators_witness : Validator.required ∈ c6field.args.validators :=
  ((C6_scalar_validators okConv "User" okMapper "name" nameCol none false c6field
      (fun _ => rfl) (by rfl)).1 rfl (by decide))

/-- C7: contrary to the claim that the formatter map is an optional view
attribute, converting any relationship whose field arguments carry no
get_label entry raises AttributeError when the view does not define
form_formatters, because _get_label_func fetches it with two-argument
getattr. -/
theorem C7_formatter_map_required :
    c7conv.convert "User" okMapper userRelProp none false =
      Except.error PyErr.attributeError := by
  rfl

/-- C8: contrary to the docstring, get_info does not normalize a bare
model class to a settings object - it returns None for it (only the
tuple and settings-object shapes are handled). -/
theorem C8_get_info_drops_model_class (self : InlineModelConverterBase) (m : String) :
    self.get_info (InlinePyObj.modelClass m) = none := rfl

/-- C9: a relationship converted without a field-type override and with no
allow_blank key in the field arguments gives the constructed field an
allow_blank equal to the one-element tuple (local_column.nullable,) and
never the bare boolean. -/
theorem C9_allow_blank_is_tuple (self : AdminModelConverter) (model : String) (mapper : Mapper)
    (key : String) (dir : Direction) (mc : String) (pairs : List (SAColumn × SAColumn))
    (cols : Option (List SAColumn)) (prox : Option SAProp) (fa : Option FieldArgs)
    (hpk : Bool) (lc rc : SAColumn) (f : Field)
    (hpair : pairs.head? = some (lc, rc))
    (hov : self._get_field_override key = none)
    (hab : (makeKwargs fa).allow_blank = none)
    (hok : self.convert model mapper (SAProp.mk key (some dir) mc pairs cols prox) fa hpk =
      Except.ok (some f)) :
    f.args.allow_blank = some (BlankVal.tup lc.nullable) ∧
    ∀ b : Bool, f.args.allow_blank ≠ some (BlankVal.boolVal b) := by
  simp only [AdminModelConverter.convert, SAProp.direction, SAProp.key, SAProp.mapper_class,
    SAProp.local_remote_pairs] at hok
  obtain ⟨_, habf⟩ :=
    convertRelationship_spec self dir key mc pairs (makeKwargs fa) lc rc f hpair hov hok
  rw [hab] at habf
  refine ⟨habf, ?_⟩
  intro b hb
  rw [habf] at hb
  exact BlankVal.noConfusion (Option.some.inj hb)

/-- Witness for C9: a nullable local column yields the tuple on true. -/
theorem C9_allow_blank_is_tuple_witness :
    c9field.args.allow_blank = some (BlankVal.tup true) :=
  (C9_allow_blank_is_tuple okConv "User" okMapper "user" Direction.manytoone "Remote"
      [(userIdColN, idCol)] none none none false userIdColN idCol c9field rfl rfl rfl
      (by rfl)).1

/-- C10: with ignore_hidden at its default (true), a property whose name
starts with an underscore never appears in the generated form's field
dictionary, even when that name is explicitly listed in only - the
underscore skip runs after inclusion-list resolution. -/
theorem C10_underscore_skips_only (model : SAModel) (converter : AdminModelConverter)
    (base_class : String) (only : List String) (exclude : Option (List String))
    (field_args : Option (List (String × FieldArgs))) (hidden_pk : Bool)
    (fc : FormClass) (name : String)
    (hname : startsWithUnderscore name = true) (_hmem : name ∈ only)
    (h : get_form model converter base_class (some only) exclude field_args hidden_pk true =
      Except.ok fc) :
    dictGet fc.fields name = none := by
  simp only [get_form] at h
  split at h
  · cases h
  · split at h
    · cases h
    · rename_i fd heq
      simp only [Except.ok.injEq] at h
      subst h
      exact getFormLoop_hidden_excluded _ _ fd heq name hname

/-- Witness for C10: _secret listed in only is still excluded. -/
theorem C10_underscore_skips_only_witness : dictGet c10form.fields "_secret" = none :=
  C10_underscore_skips_only c10model okConv "BaseForm" ["_secret"] none none false c10form
    "_secret" (by decide) (by decide) (by rfl)

end FlaskDB
